import Mathlib

/-!
Verification of the Memori SDK/CLI HTTP client and login flow
(`memori/_network.py`, `memori/_token_flow.py`, `memori/_auth.py`,
`memori/cli.py`) via a shallow embedding in Lean.

Conventions of the embedding:
* Python `None` becomes `Option.none`; a possibly-absent string field is
  `Option String`.
* Python truthiness of an optional string (`if x:`) is `pyTruthy`:
  `none` and `some ""` are falsy, every other string is truthy.
* Python `a or b` on optional strings is `pyOr`.
* A JSON response body is abstracted to the only parts the client inspects:
  the optional `message` field plus an opaque `tag` distinguishing payloads.
  A body that fails to parse as JSON is `Except.error ()`.
-/

namespace Memori

/-- Python truthiness of an optional string: `None` and `""` are falsy. -/
def pyTruthy : Option String → Bool
  | none => false
  | some s => s ≠ ""

/-- Python `a or b` on optional strings: returns `a` when `a` is truthy,
otherwise `b`. -/
def pyOr (a b : Option String) : Option String :=
  if pyTruthy a then a else b

/-- Abstraction of a parsed JSON object: the `message` field the quota
handler reads, plus an opaque tag standing for the rest of the object.
`Json.empty` (tag 0, no message) stands for the Python literal `{}`. -/
structure Json where
  message : Option String := none
  tag : Nat := 0
  deriving DecidableEq, Repr

def Json.empty : Json := ⟨none, 0⟩

/-- The result of `response.json()`: either a parsed object or a parse
failure (which the Python code observes as a raised exception). -/
abbrev BodyResult := Except Unit Json

instance {ε α : Type} [DecidableEq ε] [DecidableEq α] : DecidableEq (Except ε α) := fun x y =>
  match x, y with
  | .ok a, .ok b =>
      if h : a = b then .isTrue (congrArg Except.ok h)
      else .isFalse (fun hc => h (Except.ok.inj hc))
  | .error a, .error b =>
      if h : a = b then .isTrue (congrArg Except.error h)
      else .isFalse (fun hc => h (Except.error.inj hc))
  | .ok _, .error _ => .isFalse (fun hc => Except.noConfusion hc)
  | .error _, .ok _ => .isFalse (fun hc => Except.noConfusion hc)

/-- `memori/_exceptions.py`: the default `QuotaExceededError` message. -/
def defaultQuotaMessage : String := "Quota reached. Run `memori login` to upgrade."

/-- The `message` extraction shared by `Api._handle_quota_response`,
`Api.augmentation_async` and `Api.__request_async`: try to parse the body
and read its `message` field; any failure leaves `message = None`. -/
def quotaMessageOf (body : BodyResult) : Option String :=
  match body with
  | .error _ => none
  | .ok j => j.message

/-- The message carried by the `QuotaExceededError` the client raises:
the body's `message` field when truthy, else the default message
(`raise QuotaExceededError(message)` vs `raise QuotaExceededError()`). -/
def quotaErrorMessage (body : BodyResult) : String :=
  match quotaMessageOf body with
  | some m => if m ≠ "" then m else defaultQuotaMessage
  | none => defaultQuotaMessage

/-- `Api._get_api_key`: `self.config.api_key or os.environ.get("MEMORI_API_KEY")`.
`configKey` is `config.api_key`, `envKey` is the environment variable. -/
def getApiKey (configKey envKey : Option String) : Option String :=
  pyOr configKey envKey

/-- `Api._is_anonymous`: `not self._get_api_key()` (Python truthiness). -/
def isAnonymous (configKey envKey : Option String) : Bool :=
  ! pyTruthy (getApiKey configKey envKey)

/-- `Api.headers`: a fixed `X-Memori-API-Key` header, plus
`Authorization: Bearer <key>` exactly when `_get_api_key()` is not `None`. -/
def headers (xApiKey : String) (configKey envKey : Option String) : List (String × String) :=
  [("X-Memori-API-Key", xApiKey)] ++
    match getApiKey configKey envKey with
    | some k => [("Authorization", "Bearer " ++ k)]
    | none => []

/-- `Api.url`: `f"{self.__base}/v1/{route}"`. -/
def url (base route : String) : String :=
  base ++ "/v1/" ++ route

/-- `_ApiRetryRecoverable.is_retry`: `500 <= status_code <= 599`,
ignoring `method` and `has_retry_after`. -/
def is_retry (method : String) (statusCode : Nat) (hasRetryAfter : Bool) : Bool :=
  500 ≤ statusCode && statusCode ≤ 599

/-- Outcome of `Api._handle_quota_response`: either it returns normally or
it raises a `QuotaExceededError` with the given message. -/
inductive QuotaCheck
  | pass
  | raiseQuota (msg : String)
  deriving DecidableEq, Repr

/-- `Api._handle_quota_response`: return unless the status is 403/429 and
the caller is anonymous; in that case raise `QuotaExceededError` with the
body's message when truthy, else the default. -/
def handle_quota_response (anon : Bool) (status : Nat) (body : BodyResult) : QuotaCheck :=
  if ¬ (status = 403 ∨ status = 429) then .pass
  else if ¬ anon then .pass
  else .raiseQuota (quotaErrorMessage body)

/-- The errors a request method can raise. `http` covers
`aiohttp.ClientResponseError` / `requests.HTTPError` carrying the status;
`jsonError` is a body-parse failure in the success path; `network` is an
exception while performing the request itself. -/
inductive ReqError
  | quota (msg : String)
  | http (status : Nat)
  | jsonError
  | network
  deriving DecidableEq, Repr

/-- One sync request (`Api.get` / `post` / `patch` / `delete` after the
response arrives): `_handle_quota_response`, then `raise_for_status`
(requests raises for 400 ≤ status < 600), then `r.json()`. -/
def syncRequest (anon : Bool) (status : Nat) (body : BodyResult) : Except ReqError Json :=
  match handle_quota_response anon status body with
  | .raiseQuota m => .error (.quota m)
  | .pass =>
    if 400 ≤ status ∧ status < 600 then .error (.http status)
    else match body with
      | .ok j => .ok j
      | .error _ => .error .jsonError

/-- `Api.augmentation_async` once the response arrives: on 403/429, an
anonymous caller gets `QuotaExceededError`; an authenticated caller gets
`{}` for 429 and falls through to `raise_for_status` for 403. Otherwise
`raise_for_status` (aiohttp raises for status ≥ 400), then `r.json()`. -/
def augmentation_async (anon : Bool) (status : Nat) (body : BodyResult) : Except ReqError Json :=
  if status = 403 ∨ status = 429 then
    if anon then .error (.quota (quotaErrorMessage body))
    else if status = 429 then .ok Json.empty
    else afterQuotaBlock
  else afterQuotaBlock
where
  afterQuotaBlock : Except ReqError Json :=
    if 400 ≤ status then .error (.http status)
    else match body with
      | .ok j => .ok j
      | .error _ => .error .jsonError

/-- The observable outcome of one HTTP exchange inside
`Api.__request_async`'s `try` block: a response (status and body) or an
exception raised while performing the request. -/
inductive Attempt
  | resp (status : Nat) (body : BodyResult)
  | fail
  deriving DecidableEq, Repr

/-- The body of `Api.__request_async`'s `try` block for one attempt: the
anonymous-quota check, then `raise_for_status` (aiohttp: status ≥ 400),
then `r.json()`. Every `.error` here is an exception raised inside the
`try` and lands in the `except` clauses. -/
def stepAsync (anon : Bool) : Attempt → Except ReqError Json
  | .fail => .error .network
  | .resp status body =>
    if (status = 403 ∨ status = 429) ∧ anon then
      .error (.quota (quotaErrorMessage body))
    else if 400 ≤ status then .error (.http status)
    else match body with
      | .ok j => .ok j
      | .error _ => .error .jsonError

/-- Which raised errors `Api.__request_async` retries: a
`ClientResponseError` only when its status is in [500, 599] (the first
`except` re-raises otherwise); every other exception is caught by the
blanket `except Exception` and always retried — including the
`QuotaExceededError` raised in the `try` block. -/
def retryableAsync : ReqError → Bool
  | .http s => 500 ≤ s && s ≤ 599
  | _ => true

def maxRetries : Nat := 5

def backoffFactor : Nat := 1

/-- Result of a whole `Api.__request_async` call: the returned json or the
raised error, the sequence of backoff delays slept (in order), and the
number of HTTP requests performed. -/
structure AsyncCall where
  result : Except ReqError Json
  delays : List Nat
  requests : Nat
  deriving DecidableEq, Repr

/-- The `while True` loop of `Api.__request_async`, driven by `server`,
which gives the outcome of the request made when the counter `attempts`
has the given value. `remaining` is `max_retries - attempts`; the code's
`if attempts >= max_retries: raise` is `remaining = 0` here. On a
retryable error with retries left, sleep `backoff_factor * 2 ** attempts`
and loop with `attempts += 1`. -/
def request_async_go (anon : Bool) (server : Nat → Attempt) :
    Nat → Nat → List Nat → AsyncCall
  | 0, attempts, delays =>
    match stepAsync anon (server attempts) with
    | .ok j => ⟨.ok j, delays.reverse, attempts + 1⟩
    | .error e => ⟨.error e, delays.reverse, attempts + 1⟩
  | r + 1, attempts, delays =>
    match stepAsync anon (server attempts) with
    | .ok j => ⟨.ok j, delays.reverse, attempts + 1⟩
    | .error e =>
      if retryableAsync e then
        request_async_go anon server r (attempts + 1)
          ((backoffFactor * 2 ^ attempts) :: delays)
      else ⟨.error e, delays.reverse, attempts + 1⟩

/-- `Api.__request_async`: the loop starting from `attempts = 0` with
`max_retries = 5` retries available. -/
def request_async (anon : Bool) (server : Nat → Attempt) : AsyncCall :=
  request_async_go anon server maxRetries 0 []

/-- Server that fails with 503 on the first four requests, then answers
200 with body `⟨none, 1⟩`. -/
def serverFail4 : Nat → Attempt := fun i =>
  if i < 4 then .resp 503 (.error ()) else .resp 200 (.ok ⟨none, 1⟩)

/-- Server that always answers 503. -/
def server503 : Nat → Attempt := fun _ => .resp 503 (.error ())

/-- Server that answers 403 with a quota message on the first request and
200 on every later request. -/
def serverQuotaThenOk : Nat → Attempt := fun i =>
  if i = 0 then .resp 403 (.ok ⟨some "quota exceeded", 1⟩)
  else .resp 200 (.ok ⟨none, 2⟩)

/-- Server that always answers 429 with an empty JSON object. -/
def server429 : Nat → Attempt := fun _ => .resp 429 (.ok Json.empty)

/-- A payload returned by `TokenFlowClient.wait`, abstracted to the fields
`_cmd_login` reads. `timeout` is the truthiness of the payload's
`timeout` field; the string fields record the corresponding JSON fields
when present. -/
structure WaitPayload where
  timeout : Bool := false
  api_key : Option String := none
  token : Option String := none
  token_secret : Option String := none
  email : Option String := none
  deriving DecidableEq, Repr

/-- The credential extraction in `_cmd_login`:
`wait_payload.get("api_key") or wait_payload.get("token") or
wait_payload.get("token_secret")`. -/
def extractApiKey (p : WaitPayload) : Option String :=
  pyOr (pyOr p.api_key p.token) p.token_secret

/-- The polling loop of `_cmd_login` (`for attempt in itertools.count(1)`),
with `w i` the payload returned by the `(i+1)`-st call to
`flow_client.wait`: keep polling while the payload's `timeout` field is
truthy; break at the first non-timeout payload. The Python loop is
unbounded, so it is unrolled with `fuel`; the result records the number of
wait calls made and the payload that broke the loop. -/
def waitLoop (w : Nat → WaitPayload) : Nat → Nat → Option (Nat × WaitPayload)
  | 0, _ => none
  | fuel + 1, i =>
    if (w i).timeout then waitLoop w fuel (i + 1)
    else some (i + 1, w i)

/-- A wait-response schedule: `k` payloads `{timeout: true}` followed by
`final` on every later call. -/
def timeoutsThenFinal (k : Nat) (final : WaitPayload) : Nat → WaitPayload :=
  fun i => if i < k then { timeout := true } else final

/-- printed when the final wait payload carries no credential. -/
def msgNoKey : String := "No API key returned from login."

/-- printed when `save_api_key` raises; `exc` is the exception text. -/
def msgFailedSave (exc : String) : String := "Failed to save API key: " ++ exc

/-- the fallback suggestion printed after a failed save. -/
def msgFallback : String := "You can set MEMORI_API_KEY manually."

/-- printed by the `except KeyboardInterrupt` handler. -/
def msgCancelled : String := "Login cancelled."

/-- printed by the generic `except Exception` handler around the loop. -/
def msgLoginFailed (exc : String) : String := "Login failed: " ++ exc

/-- Observable result of the tail of `_cmd_login` (after the polling
loop): the exit code, the key persisted to the credential store (`none`
when nothing was persisted), and the console messages printed. -/
structure LoginTail where
  exitCode : Nat
  savedKey : Option String
  messages : List String
  deriving DecidableEq, Repr

/-- `_cmd_login` after the polling loop: extract the credential; when it
is falsy report `msgNoKey` and return 1; otherwise call
`save_api_key(api_key, email)` — when it raises (`save = .error exc`)
print the warning and the fallback suggestion and return 1, and when it
succeeds print the welcome line (using the payload email, else
`get_account_email()` = `accountEmail`) and return 0. -/
def loginFinish (p : WaitPayload) (save : Except String Unit)
    (accountEmail : Option String) : LoginTail :=
  let key := extractApiKey p
  if ¬ pyTruthy key then ⟨1, none, [msgNoKey]⟩
  else
    match save with
    | .error exc => ⟨1, none, [msgFailedSave exc, msgFallback]⟩
    | .ok _ =>
      let email := pyOr p.email accountEmail
      ⟨0, key,
        [if pyTruthy email then
            "✅ Authenticated as " ++ email.getD "" ++ ". Welcome to Memori!"
          else "✅ Authenticated. Welcome to Memori!"]⟩

/-- How the polling phase of `_cmd_login` exits: the loop broke on a
non-timeout payload, a `KeyboardInterrupt` arrived, or another exception
escaped `flow_client.wait`. -/
inductive PollExit
  | completed (p : WaitPayload)
  | interrupted
  | errored (exc : String)
  deriving DecidableEq, Repr

/-- Observable result of `_cmd_login` from the polling loop on: exit code,
how many times `server.shutdown()` was invoked, the persisted key, and the
console messages. -/
structure LoginRun where
  exitCode : Nat
  shutdownCalls : Nat
  savedKey : Option String
  messages : List String
  deriving DecidableEq, Repr

/-- The `try`/`except KeyboardInterrupt`/`except Exception`/`finally`
around the polling loop of `_cmd_login`, plus the tail. The interrupt and
exception handlers each call `server.shutdown()` once and return 1; the
`finally` block always calls `server.shutdown()` once more, because a
Python `finally` also runs when an `except` handler returns — hence
`1 + 1` shutdown calls on the handler paths and `0 + 1` on the completed
path. -/
def loginPollPhase (outcome : PollExit) (save : Except String Unit)
    (accountEmail : Option String) : LoginRun :=
  match outcome with
  | .interrupted => ⟨1, 1 + 1, none, [msgCancelled]⟩
  | .errored exc => ⟨1, 1 + 1, none, [msgLoginFailed exc]⟩
  | .completed p =>
    let t := loginFinish p save accountEmail
    ⟨t.exitCode, 0 + 1, t.savedKey, t.messages⟩

/-- An HTTP response of the local callback server: status line, headers
sent via `send_header`, and body written to `wfile`. -/
structure HttpResponse where
  status : Nat
  respHeaders : List (String × String)
  body : String
  deriving DecidableEq, Repr

/-- `TokenFlowHandler.do_GET` from `_make_token_flow_handler`, as a
function of `state.get("token_flow_id")`: while the id is falsy answer
503 with the CORS header and body `pending`; once it is set answer 200
with `text/plain`, the CORS header, and the id as body. -/
def tokenFlowDoGet (tokenFlowId : Option String) : HttpResponse :=
  if ¬ pyTruthy tokenFlowId then
    ⟨503, [("Access-Control-Allow-Origin", "*")], "pending"⟩
  else
    ⟨200, [("Content-Type", "text/plain; charset=utf-8"),
           ("Access-Control-Allow-Origin", "*")], tokenFlowId.getD ""⟩

/-- The JSON body of a 2xx `/v1/token-flow/create` response, abstracted to
the fields `TokenFlowClient.create` reads. -/
structure CreateBody where
  token_flow_id : Option String := none
  flow_id : Option String := none
  wait_secret : Option String := none
  web_url : Option String := none
  code : Option String := none
  deriving DecidableEq, Repr

/-- `memori/_token_flow.py`: the `TokenFlowCreateResponse` dataclass. -/
structure TokenFlowCreateResponse where
  token_flow_id : Option String
  wait_secret : Option String
  web_url : Option String
  code : Option String
  deriving DecidableEq, Repr

/-- `TokenFlowClient.create` applied to a parsed 2xx body:
`token_flow_id = data.get("token_flow_id") or data.get("flow_id")`, the
other fields copied from the corresponding optional fields. -/
def tokenFlowCreate (data : CreateBody) : TokenFlowCreateResponse :=
  ⟨pyOr data.token_flow_id data.flow_id, data.wait_secret, data.web_url, data.code⟩

/-- The final wait payload of the spec's login scenario:
`{api_key: "k1", email: "a@b.com"}`. -/
def k1Payload : WaitPayload := { api_key := some "k1", email := some "a@b.com" }

end Memori

namespace Memori

/-- C4: `_ApiRetryRecoverable.is_retry` is true exactly on [500, 599],
for every method string and every value of `has_retry_after`. -/
theorem is_retry_iff_5xx (method : String) (statusCode : Nat) (hasRetryAfter : Bool) :
    is_retry method statusCode hasRetryAfter = true ↔
      500 ≤ statusCode ∧ statusCode ≤ 599 := by
  simp [is_retry]

theorem is_retry_iff_5xx_witness :
    is_retry "GET" 503 false = true ∧ is_retry "POST" 404 true = false := by
  constructor
  · exact (is_retry_iff_5xx "GET" 503 false).mpr (by decide)
  · have h := (is_retry_iff_5xx "POST" 404 true).not
    simp only [Bool.not_eq_true] at h ⊢
    exact h.mpr (by decide)

/-- C5: the request URL is `{base}/v1/{route}`, the fixed service key header
is always the first header, and the `Authorization` header is present (as a
bearer token) exactly when a user API key is resolved from config or
environment. -/
theorem headers_and_url_spec (xApiKey base route : String)
    (configKey envKey : Option String) :
    url base route = base ++ "/v1/" ++ route ∧
    (headers xApiKey configKey envKey).lookup "X-Memori-API-Key" = some xApiKey ∧
    (headers xApiKey configKey envKey).lookup "Authorization" =
      (getApiKey configKey envKey).map (fun k => "Bearer " ++ k) := by
  refine ⟨rfl, ?_, ?_⟩
  · cases h : getApiKey configKey envKey <;> simp [headers, h, List.lookup]
  · cases h : getApiKey configKey envKey <;>
      simp [headers, h, List.lookup]

/-- Helper for the retry-policy theorem: the loop's recorded delays extend
the accumulator by `backoff_factor * 2 ^ i` for `i = attempts, attempts+1,
…`, and at most `remaining` further delays are added. -/
theorem request_async_go_delays (anon : Bool) (server : Nat → Attempt) :
    ∀ (remaining attempts : Nat) (delays : List Nat),
      ∃ k ≤ remaining,
        (request_async_go anon server remaining attempts delays).delays =
          delays.reverse ++ (List.range' attempts k).map (fun i => backoffFactor * 2 ^ i) := by
  intro remaining
  induction remaining with
  | zero =>
    intro attempts delays
    refine ⟨0, Nat.le_refl 0, ?_⟩
    rw [request_async_go]
    cases stepAsync anon (server attempts) with
    | ok j => simp
    | error e => simp
  | succ r ih =>
    intro attempts delays
    rw [request_async_go]
    cases h : stepAsync anon (server attempts) with
    | ok j => exact ⟨0, Nat.zero_le _, by simp⟩
    | error e =>
      cases hr : retryableAsync e with
      | false => exact ⟨0, Nat.zero_le _, by simp [hr]⟩
      | true =>
        obtain ⟨k, hk, hres⟩ := ih (attempts + 1) ((backoffFactor * 2 ^ attempts) :: delays)
        refine ⟨k + 1, Nat.succ_le_succ hk, ?_⟩
        show (if retryableAsync e = true then
            request_async_go anon server r (attempts + 1) ((backoffFactor * 2 ^ attempts) :: delays)
          else ⟨.error e, delays.reverse, attempts + 1⟩).delays =
          delays.reverse ++ (List.range' attempts (k + 1)).map (fun i => backoffFactor * 2 ^ i)
        rw [if_pos hr, hres, List.range'_succ attempts k 1]
        simp

/-- C3: the async retry loop sleeps `backoff_factor * 2 ^ attempt` for
`attempt = 0, 1, …` and performs at most 5 retries, so the slept delays
are always an initial segment of `[1, 2, 4, 8, 16]`; a server failing four
times with 503 and then succeeding yields success after exactly the delays
`[1, 2, 4, 8]` (5 requests); a server always answering 503 makes the call
raise the 503 error after the delays `[1, 2, 4, 8, 16]` (6 requests, i.e.
after the 5th retry). -/
theorem request_async_retry_policy :
    (∀ (anon : Bool) (server : Nat → Attempt),
        ∃ k ≤ maxRetries,
          (request_async anon server).delays =
            (List.range k).map (fun i => backoffFactor * 2 ^ i)) ∧
    (List.range maxRetries).map (fun i => backoffFactor * 2 ^ i) = [1, 2, 4, 8, 16] ∧
    request_async false serverFail4 = ⟨.ok ⟨none, 1⟩, [1, 2, 4, 8], 5⟩ ∧
    request_async false server503 = ⟨.error (.http 503), [1, 2, 4, 8, 16], 6⟩ := by
  refine ⟨?_, by decide, rfl, rfl⟩
  intro anon server
  obtain ⟨k, hk, hres⟩ := request_async_go_delays anon server maxRetries 0 []
  exact ⟨k, hk, by simpa [request_async, List.range_eq_range'] using hres⟩

/-- C1 counterexample: in `Api.__request_async` the `QuotaExceededError`
raised for an anonymous 403 response is swallowed by the blanket
`except Exception` retry handler, so an anonymous call that receives a 403
(with a quota message) and then a 200 succeeds instead of failing with
`QuotaExceededError`. -/
theorem anon_quota_not_fatal_in_request_async :
    isAnonymous none none = true ∧
    serverQuotaThenOk 0 = .resp 403 (.ok ⟨some "quota exceeded", 1⟩) ∧
    request_async true serverQuotaThenOk = ⟨.ok ⟨none, 2⟩, [1], 2⟩ :=
  ⟨rfl, rfl, rfl⟩

/-- C1 (amended): for an anonymous caller, a 403/429 response makes the
sync methods and `augmentation_async` fail immediately with a
`QuotaExceededError`, while `Api.__request_async` fails with it only once
the retry budget is exhausted by quota responses (here: every response is
403/429, after delays `[1, 2, 4, 8, 16]`); the error message is the body's
`message` field when the body parses as JSON and the field is a non-empty
string, else the fixed default message. -/
theorem anon_quota_error_message_policy :
    (∀ (status : Nat) (body : BodyResult),
        status = 403 ∨ status = 429 →
          syncRequest true status body = .error (.quota (quotaErrorMessage body)) ∧
          augmentation_async true status body = .error (.quota (quotaErrorMessage body)) ∧
          (request_async true (fun _ => .resp status body)).result =
            .error (.quota (quotaErrorMessage body)) ∧
          (request_async true (fun _ => .resp status body)).delays = [1, 2, 4, 8, 16]) ∧
    (∀ (m : String) (t : Nat), m ≠ "" → quotaErrorMessage (.ok ⟨some m, t⟩) = m) ∧
    (∀ t : Nat, quotaErrorMessage (.ok ⟨some "", t⟩) = defaultQuotaMessage ∧
        quotaErrorMessage (.ok ⟨none, t⟩) = defaultQuotaMessage) ∧
    quotaErrorMessage (.error ()) = defaultQuotaMessage := by
  refine ⟨?_, ?_, ?_, rfl⟩
  · rintro status body (rfl | rfl) <;>
      refine ⟨by simp [syncRequest, handle_quota_response], by simp [augmentation_async], ?_, ?_⟩ <;>
      simp [request_async, request_async_go, stepAsync, retryableAsync, maxRetries, backoffFactor]
  · intro m t hm
    simp [quotaErrorMessage, quotaMessageOf, hm]
  · intro t
    exact ⟨rfl, rfl⟩

theorem anon_quota_error_message_policy_witness :
    syncRequest true 403 (.ok ⟨some "quota msg", 7⟩) = .error (.quota "quota msg") := by
  have h := (anon_quota_error_message_policy.1 403 (.ok ⟨some "quota msg", 7⟩) (Or.inl rfl)).1
  have hm := anon_quota_error_message_policy.2.1 "quota msg" 7 (by decide)
  rw [h, hm]

/-- C2 counterexample: an authenticated 429 does not give an empty result
on every Api method: `Api.__request_async` (used by `get_async`,
`post_async`, `patch_async`) re-raises the 429 `ClientResponseError`
immediately (it is not 5xx), so the call raises instead of returning `{}`. -/
theorem auth_429_raises_in_request_async :
    isAnonymous (some "user-key") none = false ∧
    request_async false server429 = ⟨.error (.http 429), [], 1⟩ :=
  ⟨rfl, rfl⟩

/-- C2 (amended): for an authenticated caller a 429 response makes
`augmentation_async` return the empty object `{}`, but the sync methods
raise `requests.HTTPError` and `Api.__request_async` raises
`ClientResponseError`, both carrying status 429, without retrying. -/
theorem auth_429_behavior :
    (∀ body : BodyResult, augmentation_async false 429 body = .ok Json.empty) ∧
    (∀ body : BodyResult,
        syncRequest false 429 body = .error (.http 429) ∧
        request_async false (fun _ => .resp 429 body) = ⟨.error (.http 429), [], 1⟩) := by
  constructor
  · intro body
    simp [augmentation_async]
  · intro body
    refine ⟨by simp [syncRequest, handle_quota_response], ?_⟩
    simp [request_async, request_async_go, stepAsync, retryableAsync, maxRetries]

/-- Helper for the login-loop theorem: if the payloads before index `n`
are all timeouts and the one at `n` is not, the loop polls once per
timeout and stops at index `n`, returning its payload after `n + 1` wait
calls (given enough fuel). -/
theorem waitLoop_stops_at_first_nontimeout (w : Nat → WaitPayload) :
    ∀ (fuel i n : Nat), i ≤ n → n < i + fuel →
      (∀ m, i ≤ m → m < n → (w m).timeout = true) →
      (w n).timeout = false →
      waitLoop w fuel i = some (n + 1, w n) := by
  intro fuel
  induction fuel with
  | zero =>
    intro i n hin hlt _ _
    exact absurd hlt (by omega)
  | succ f ih =>
    intro i n hin hlt hall hfin
    rw [waitLoop]
    rcases Nat.lt_or_ge i n with hi | hi
    · have ht := hall i (Nat.le_refl i) hi
      simp only [ht, if_true]
      exact ih (i + 1) n hi (by omega) (fun m hm1 hm2 => hall m (by omega) hm2) hfin
    · have hin' : i = n := Nat.le_antisymm hin hi
      subst hin'
      simp [hfin]

/-- C6: given `k` timeout payloads followed by a non-timeout payload, the
login polling loop re-polls on each timeout and stops at the first
non-timeout payload after exactly `k + 1` wait calls; the credential is
extracted checking `api_key`, then `token`, then `token_secret` in that
priority order; when a credential is present (and the store accepts it)
the command persists it and exits 0, and when the final payload carries no
credential it reports the failure and exits 1. -/
theorem login_polling_and_credential (k fuel : Nat) (final : WaitPayload)
    (accountEmail : Option String) (hfuel : k < fuel) (hfinal : final.timeout = false) :
    waitLoop (timeoutsThenFinal k final) fuel 0 = some (k + 1, final) ∧
    (pyTruthy final.api_key = true → extractApiKey final = final.api_key) ∧
    (pyTruthy final.api_key = false → pyTruthy final.token = true →
        extractApiKey final = final.token) ∧
    (pyTruthy final.api_key = false → pyTruthy final.token = false →
        extractApiKey final = final.token_secret) ∧
    (pyTruthy (extractApiKey final) = true →
        (loginFinish final (.ok ()) accountEmail).exitCode = 0 ∧
        (loginFinish final (.ok ()) accountEmail).savedKey = extractApiKey final) ∧
    (pyTruthy (extractApiKey final) = false →
        loginFinish final (.ok ()) accountEmail = ⟨1, none, [msgNoKey]⟩) := by
  refine ⟨?_, ?_, ?_, ?_, ?_, ?_⟩
  · have := waitLoop_stops_at_first_nontimeout (timeoutsThenFinal k final) fuel 0 k
      (Nat.zero_le k) (by omega)
      (fun m _ hm => by simp [timeoutsThenFinal, hm])
      (by simp [timeoutsThenFinal, hfinal])
    simpa [timeoutsThenFinal] using this
  · intro h
    simp [extractApiKey, pyOr, h]
  · intro h1 h2
    simp [extractApiKey, pyOr, h1, h2]
  · intro h1 h2
    simp [extractApiKey, pyOr, h1, h2]
  · intro h
    simp [loginFinish, h]
  · intro h
    simp [loginFinish, h]

theorem login_polling_and_credential_witness :
    waitLoop (timeoutsThenFinal 2 k1Payload) 3 0 = some (3, k1Payload) ∧
    (loginFinish k1Payload (.ok ()) none).exitCode = 0 ∧
    (loginFinish k1Payload (.ok ()) none).savedKey = some "k1" := by
  have h := login_polling_and_credential 2 3 k1Payload none (by decide) rfl
  have hfin := h.2.2.2.2.1 (by decide)
  exact ⟨h.1, hfin.1, hfin.2⟩

/-- C7: a GET to the local callback server answers 503 with the permissive
CORS header while the token-flow id is unset, and once the id is set (a
non-empty string) it answers 200 with `text/plain`, the CORS header, and
the id itself as body. -/
theorem callback_server_get (s : String) (hs : s ≠ "") :
    tokenFlowDoGet none = ⟨503, [("Access-Control-Allow-Origin", "*")], "pending"⟩ ∧
    tokenFlowDoGet (some s) =
      ⟨200, [("Content-Type", "text/plain; charset=utf-8"),
             ("Access-Control-Allow-Origin", "*")], s⟩ := by
  constructor
  · rfl
  · simp [tokenFlowDoGet, pyTruthy, hs]

theorem callback_server_get_witness :
    tokenFlowDoGet (some "flow-123") =
      ⟨200, [("Content-Type", "text/plain; charset=utf-8"),
             ("Access-Control-Allow-Origin", "*")], "flow-123"⟩ :=
  (callback_server_get "flow-123" (by decide)).2

/-- C8 counterexample: when `KeyboardInterrupt` arrives in the polling
loop, the `except KeyboardInterrupt` handler calls `server.shutdown()` and
returns 1, and the `finally` block then calls `server.shutdown()` a second
time — shutdown is observed twice, not exactly once. -/
theorem interrupt_shutdown_twice :
    loginPollPhase .interrupted (.ok ()) none = ⟨1, 2, none, [msgCancelled]⟩ ∧
    (loginPollPhase .interrupted (.ok ()) none).shutdownCalls ≠ 1 :=
  ⟨rfl, by decide⟩

/-- C8 (amended): an interrupt during the polling loop makes the command
print "Login cancelled." and exit 1 with nothing persisted;
`server.shutdown()` is invoked exactly twice on that path (once in the
handler and once in the `finally` cleanup), while on a normally completed
poll it is invoked exactly once (the `finally` only). -/
theorem interrupt_cancels_login (save : Except String Unit) (accountEmail : Option String) :
    loginPollPhase .interrupted save accountEmail = ⟨1, 2, none, [msgCancelled]⟩ ∧
    (∀ p, (loginPollPhase (.completed p) save accountEmail).shutdownCalls = 1) := by
  exact ⟨rfl, fun p => rfl⟩

/-- C9 counterexample: with the API key `k1` obtained but `save_api_key`
raising, `_cmd_login` returns exit code 1 — the persistence failure is
fatal to the command, contradicting "the login still completes
successfully". -/
theorem save_failure_exit_code :
    pyTruthy (extractApiKey k1Payload) = true ∧
    loginFinish k1Payload (.error "Keyring is not available.") none =
      ⟨1, none, [msgFailedSave "Keyring is not available.", msgFallback]⟩ ∧
    (loginFinish k1Payload (.error "Keyring is not available.") none).exitCode ≠ 0 := by
  refine ⟨by decide, rfl, by decide⟩

/-- C9 (amended): when the login flow has obtained an API key but
persisting it fails, the command does surface the warning and the
`MEMORI_API_KEY` fallback suggestion, but it persists nothing and exits
with code 1 — the failure is fatal to the login command's exit status. -/
theorem save_failure_behavior (p : WaitPayload) (exc : String)
    (accountEmail : Option String) (h : pyTruthy (extractApiKey p) = true) :
    loginFinish p (.error exc) accountEmail =
      ⟨1, none, [msgFailedSave exc, msgFallback]⟩ := by
  simp [loginFinish, h]

theorem save_failure_behavior_witness :
    loginFinish k1Payload (.error "boom") none =
      ⟨1, none, [msgFailedSave "boom", msgFallback]⟩ :=
  save_failure_behavior k1Payload "boom" none (by decide)

/-- C10: `TokenFlowClient.create` sets `token_flow_id` to the body's
`token_flow_id` field when that field is present and truthy and otherwise
to the body's `flow_id` field, and copies `wait_secret`, `web_url` and
`code` directly from the corresponding optional fields. -/
theorem token_flow_create_fields (data : CreateBody) :
    (tokenFlowCreate data).token_flow_id =
      (if pyTruthy data.token_flow_id then data.token_flow_id else data.flow_id) ∧
    (tokenFlowCreate data).wait_secret = data.wait_secret ∧
    (tokenFlowCreate data).web_url = data.web_url ∧
    (tokenFlowCreate data).code = data.code :=
  ⟨rfl, rfl, rfl, rfl⟩

end Memori
